import Mathlib

/-!
# Runboat controller: shallow embedding and verification

This file embeds the core of the runboat controller (an orchestrator of
ephemeral per-commit builds) in Lean 4 and proves properties of it:

* the build model and its derived status (`src/runboat/models.py`),
* the in-memory build index backed by sqlite (`src/runboat/db.py`),
* the reconciler passes and watcher steps (`src/runboat/controller.py`).

Modelling conventions:

* datetimes are modelled as natural numbers; the sqlite TEXT columns holding
  ISO timestamps order lexicographically, which coincides with the numeric
  order of the instants they denote;
* Python `Optional` values are `Option`; Python truthiness of optional
  integers, strings and datetimes is made explicit in small helper functions;
* the sqlite table of builds is a `List Build` in rowid order; `INSERT OR
  REPLACE` removes the row with the same primary key and appends a new row;
* effects on the cluster and on the code forge (patches, applies, commit
  statuses) are returned as values instead of being performed.
-/

namespace Runboat

/-- Lifecycle status of a build, derived from the deployment
(`models.BuildStatus`). -/
inductive BuildStatus
  | stopped
  | stopping
  | initializing
  | starting
  | started
  | failed
  | undeploying
deriving DecidableEq, Repr

/-- Status of the initialization job, stored in the `runboat/init-status`
deployment annotation (`models.BuildInitStatus`). -/
inductive BuildInitStatus
  | todo
  | started
  | succeeded
  | failed
deriving DecidableEq, Repr

/-- Events fired by the build index to its listeners (`models.BuildEvent`). -/
inductive BuildEvent
  | modified
  | removed
deriving DecidableEq, Repr

/-- Commit status states posted to the code forge
(`github.GitHubStatusState`). -/
inductive GitHubStatusState
  | error
  | failure
  | pending
  | success
deriving DecidableEq, Repr

/-- Python's `str.lower()`, modelled on the character list of the string. -/
def strToLower (s : String) : String :=
  ⟨s.data.map Char.toLower⟩

/-- Truthiness of a Python `Optional[int]`: `None` and `0` are falsy. -/
def natTruthy : Option Nat → Bool
  | none => false
  | some n => n != 0

/-- Truthiness of a Python `Optional[str]`: `None` and `""` are falsy. -/
def strTruthy : Option String → Bool
  | none => false
  | some s => s != ""

/-- Commit coordinates of a build (`github.CommitInfo`). -/
structure CommitInfo where
  repo : String
  target_branch : String
  pr : Option Nat
  git_commit : String
deriving DecidableEq, Repr

/-- Construction of a `CommitInfo` through pydantic runs the `validate_repo`
field validator, which lower-cases `repo` (`github.CommitInfo`). -/
def CommitInfo.validated (repo target_branch : String) (pr : Option Nat)
    (git_commit : String) : CommitInfo :=
  { repo := strToLower repo
    target_branch := target_branch
    pr := pr
    git_commit := git_commit }

/-- A build as held in the index (`models.Build`). -/
structure Build where
  name : String
  deployment_name : String
  commit_info : CommitInfo
  status : BuildStatus
  init_status : BuildInitStatus
  desired_replicas : Nat
  last_scaled : Nat
  created : Nat
deriving DecidableEq, Repr

/-- `models.Build.__eq__`: builds compare by name and by the mutable fields
`status`, `init_status`, `desired_replicas` and `last_scaled` only; the
fields that are immutable by design are ignored. -/
def Build.eqPy (a b : Build) : Bool :=
  a.name == b.name
    && a.status == b.status
    && a.init_status == b.init_status
    && a.desired_replicas == b.desired_replicas
    && a.last_scaled == b.last_scaled

/-- The `runboat/*` metadata of a deployment resource: the `runboat/build`
label and the annotations read and written by the controller. `pr` collapses
the absent and empty annotation to `none`, as both reads
(`annotations.get("runboat/pr") or None`) and writes (empty string for no pr)
treat them alike. `last_scaled` keeps the raw annotation string because the
empty string and the absent annotation are distinguished from genuine
values. -/
structure DeploymentAnn where
  repo : String
  target_branch : String
  pr : Option Nat
  git_commit : String
  init_status : BuildInitStatus
  last_scaled : Option String
deriving DecidableEq, Repr

/-- A deployment snapshot as delivered by the cluster watch
(`kubernetes V1Deployment`), restricted to the fields the controller reads. -/
structure V1Deployment where
  /-- `metadata.name`. -/
  name : String
  /-- value of the `runboat/build` label; `""` models an absent label,
  matching the falsy test `if not build_name` in the watchers. -/
  build_label : String
  /-- the `runboat/*` annotations. -/
  ann : DeploymentAnn
  /-- `metadata.creation_timestamp`. -/
  creation_timestamp : Nat
  /-- `metadata.deletion_timestamp`; a datetime, truthy whenever present. -/
  deletion_timestamp : Option Nat
  /-- `spec.replicas` (desired replicas). -/
  spec_replicas : Option Nat
  /-- `status.replicas` (current replicas). -/
  status_replicas : Option Nat
  /-- `status.available_replicas`. -/
  available_replicas : Option Nat
deriving DecidableEq, Repr

/-- `models.Build._status_from_deployment`: derive the build status from a
deployment snapshot. -/
def Build.status_from_deployment (d : V1Deployment) : BuildStatus :=
  if d.deletion_timestamp.isSome then
    BuildStatus.undeploying
  else
    match d.ann.init_status with
    | BuildInitStatus.todo => BuildStatus.initializing
    | BuildInitStatus.started => BuildStatus.initializing
    | BuildInitStatus.failed => BuildStatus.failed
    | BuildInitStatus.succeeded =>
      if !natTruthy d.spec_replicas then
        if natTruthy d.status_replicas then BuildStatus.stopping
        else BuildStatus.stopped
      else
        if d.available_replicas == d.spec_replicas then BuildStatus.started
        else BuildStatus.starting

/-- The status table of spec section 3, stated on the plain numbers
(deletion marker, init status, desired, current and available replicas). -/
def specStatusTable (deletion_marker : Bool) (init_status : BuildInitStatus)
    (desired current available : Nat) : BuildStatus :=
  if deletion_marker then BuildStatus.undeploying
  else if init_status = BuildInitStatus.todo
      ∨ init_status = BuildInitStatus.started then BuildStatus.initializing
  else if init_status = BuildInitStatus.failed then BuildStatus.failed
  else if desired = 0 ∧ 0 < current then BuildStatus.stopping
  else if desired = 0 ∧ current = 0 then BuildStatus.stopped
  else if 1 ≤ desired ∧ available = desired then BuildStatus.started
  else BuildStatus.starting

/-- Pydantic coercion of an ISO datetime string to a datetime; datetimes are
modelled as naturals written in decimal. -/
def parseDt (s : String) : Nat :=
  s.toNat?.getD 0

/-- `models.Build.from_deployment`: build a `Build` from a deployment
snapshot. `last_scaled` falls back to the creation timestamp when the
`runboat/last-scaled` annotation is absent or empty (Python `or`), and
`desired_replicas` to `0` when `spec.replicas` is `None`. -/
def Build.from_deployment (d : V1Deployment) : Build :=
  { name := d.build_label
    deployment_name := d.name
    commit_info :=
      CommitInfo.validated d.ann.repo d.ann.target_branch d.ann.pr d.ann.git_commit
    init_status := d.ann.init_status
    status := Build.status_from_deployment d
    desired_replicas := d.spec_replicas.getD 0
    last_scaled :=
      match d.ann.last_scaled with
      | some s => if s = "" then d.creation_timestamp else parseDt s
      | none => d.creation_timestamp
    created := d.creation_timestamp }

/-- Sort orders of `BuildsDb.search` (`db.SortOrder`). -/
inductive SortOrder
  | asc
  | desc
deriving DecidableEq, Repr

namespace BuildsDb

/-- The in-memory sqlite table of builds, as its list of rows in rowid
order. `name` is the primary key. -/
abbrev Db := List Build

/-- `db.BuildsDb.get`: `SELECT * FROM builds WHERE name=?`. -/
def get (db : Db) (name : String) : Option Build :=
  db.find? (fun b => b.name == name)

/-- `db.BuildsDb.get_for_commit`: select by repo (lower-cased parameter),
target branch and git commit; a truthy `pr` adds `AND pr=?`, otherwise
`AND pr IS NULL`. -/
def get_for_commit (db : Db) (repo target_branch : String) (pr : Option Nat)
    (git_commit : String) : Option Build :=
  db.find? (fun b =>
    b.commit_info.repo == strToLower repo
      && b.commit_info.target_branch == target_branch
      && b.commit_info.git_commit == git_commit
      && (if natTruthy pr then b.commit_info.pr == pr
          else b.commit_info.pr == none))

/-- `db.BuildsDb.add`: upsert a build and fire a `modified` event, unless the
previous row with the same name compares equal under `Build.eqPy`, in which
case nothing happens. `INSERT OR REPLACE` drops the row with the same primary
key and appends the new row. Returns the new table and the events fired. -/
def add (db : Db) (b : Build) : Db × List (BuildEvent × Build) :=
  match get db b.name with
  | some prev =>
    if Build.eqPy prev b then (db, [])
    else (db.filter (fun x => x.name != b.name) ++ [b],
          [(BuildEvent.modified, b)])
  | none => (db ++ [b], [(BuildEvent.modified, b)])

/-- `db.BuildsDb.remove`: delete the row and fire a `removed` event iff the
build was present. -/
def remove (db : Db) (name : String) : Db × List (BuildEvent × Build) :=
  match get db name with
  | none => (db, [])
  | some b =>
    (db.filter (fun x => x.name != name), [(BuildEvent.removed, b)])

/-- `db.BuildsDb.count_by_status`. -/
def count_by_status (db : Db) (status : BuildStatus) : Nat :=
  (db.filter (fun b => b.status == status)).length

/-- `db.BuildsDb.count_by_init_status`. -/
def count_by_init_status (db : Db) (init_status : BuildInitStatus) : Nat :=
  (db.filter (fun b => b.init_status == init_status)).length

/-- `db.BuildsDb.count_all`. -/
def count_all (db : Db) : Nat :=
  db.length

/-- `db.BuildsDb.count_deployed`: builds whose status is not `undeploying`. -/
def count_deployed (db : Db) : Nat :=
  (db.filter (fun b => b.status != BuildStatus.undeploying)).length

/-- Ordering used for `ORDER BY created` (sorting is modelled by insertion
sort; sql does not promise a particular order among ties). -/
def leCreated (a b : Build) : Prop :=
  a.created ≤ b.created

instance : DecidableRel leCreated :=
  fun a b => inferInstanceAs (Decidable (a.created ≤ b.created))

instance : IsTotal Build leCreated :=
  ⟨fun a b => Nat.le_total a.created b.created⟩

instance : IsTrans Build leCreated :=
  ⟨fun _ _ _ => Nat.le_trans⟩

/-- Ordering used for `ORDER BY last_scaled`. -/
def leLastScaled (a b : Build) : Prop :=
  a.last_scaled ≤ b.last_scaled

instance : DecidableRel leLastScaled :=
  fun a b => inferInstanceAs (Decidable (a.last_scaled ≤ b.last_scaled))

instance : IsTotal Build leLastScaled :=
  ⟨fun a b => Nat.le_total a.last_scaled b.last_scaled⟩

instance : IsTrans Build leLastScaled :=
  ⟨fun _ _ _ => Nat.le_trans⟩

/-- `db.BuildsDb.to_cleanup`: builds with status `undeploying`, by creation
timestamp. -/
def to_cleanup (db : Db) : List Build :=
  List.insertionSort leCreated
    (db.filter (fun b => b.status == BuildStatus.undeploying))

/-- `db.BuildsDb.to_initialize`: oldest builds with `init_status = todo`, by
creation timestamp, limited. -/
def to_initialize_list (db : Db) (limit : Nat) : List Build :=
  (List.insertionSort leCreated
      (db.filter (fun b => b.init_status == BuildInitStatus.todo))
    ).take limit

/-- `db.BuildsDb.oldest_started`: oldest builds with `status = started`, by
`last_scaled`, limited. -/
def oldest_started (db : Db) (limit : Nat) : List Build :=
  (List.insertionSort leLastScaled
      (db.filter (fun b => b.status == BuildStatus.started))
    ).take limit

/-- Grouping of the `PARTITION BY repo, target_branch, pr` window: two rows
are in the same partition when the three columns agree (sql groups `NULL`
prs together). -/
def sameGroup (a b : Build) : Bool :=
  a.commit_info.repo == b.commit_info.repo
    && a.commit_info.target_branch == b.commit_info.target_branch
    && a.commit_info.pr == b.commit_info.pr

/-- Row `(ja, a)` is ranked before row `(ib, b)` by the window's
`ORDER BY created DESC`, within the same partition; ties on `created` are
broken by scan (rowid) order. -/
def beats (a b : Build) (ja ib : Nat) : Bool :=
  sameGroup a b
    && (decide (b.created < a.created)
        || (a.created == b.created && decide (ja < ib)))

/-- `ROW_NUMBER () OVER (PARTITION BY repo, target_branch, pr ORDER BY
created DESC)` of the row holding `b` at position `i`. -/
def rownumAt (db : Db) (i : Nat) (b : Build) : Nat :=
  1 + (db.enum.filter (fun p => beats p.2 b p.1 i)).length

/-- The inner subquery of `oldest_stopped`: every row paired with its window
row number. -/
def withRownum (db : Db) : List (Nat × Build) :=
  db.enum.map (fun p => (rownumAt db p.1 p.2, p.2))

/-- Statuses selected by `oldest_stopped`. -/
def evictableStatus (s : BuildStatus) : Bool :=
  s == BuildStatus.stopping || s == BuildStatus.stopped
    || s == BuildStatus.failed

/-- The outer `WHERE` clause of `oldest_stopped` on a numbered row:
`status IN (stopping, stopped, failed) AND (rownum != 1 OR pr IS NOT
NULL)`. -/
def evictFilter (p : Nat × Build) : Bool :=
  evictableStatus p.2.status && (p.1 != 1 || p.2.commit_info.pr != none)

/-- `db.BuildsDb.oldest_stopped`: stopped/stopping/failed rows, excluding the
row numbered 1 of each `pr IS NULL` partition, ordered by `last_scaled` and
limited. -/
def oldest_stopped (db : Db) (limit : Nat) : List Build :=
  (List.insertionSort leLastScaled
      (((withRownum db).filter evictFilter).map Prod.snd)).take limit

/-- Lexicographic byte order on strings, as sqlite compares TEXT values. -/
def charListLe : List Char → List Char → Bool
  | [], _ => true
  | _ :: _, [] => false
  | a :: as, b :: bs =>
    if a.toNat < b.toNat then true
    else if b.toNat < a.toNat then false
    else charListLe as bs

/-- String comparison for the `ORDER BY` columns of type TEXT. -/
def strLe (a b : String) : Bool :=
  charListLe a.data b.data

/-- The `WHERE` clause assembled by `db.BuildsDb.search`: each truthy filter
contributes a conjunct; `branch` additionally constrains `pr IS NULL`; `pr`
is tested with `is not None` (so `pr=0` does filter). -/
def searchWhere (repo target_branch branch : Option String) (pr : Option Nat)
    (name : Option String) (status : Option BuildStatus) (b : Build) : Bool :=
  (match repo with
   | some r => if r != "" then b.commit_info.repo == strToLower r else true
   | none => true)
  && (match target_branch with
      | some t => if t != "" then b.commit_info.target_branch == t else true
      | none => true)
  && (match branch with
      | some br =>
        if br != "" then
          b.commit_info.target_branch == br && b.commit_info.pr == none
        else true
      | none => true)
  && (match pr with
      | some p => b.commit_info.pr == some p
      | none => true)
  && (match name with
      | some n => if n != "" then b.name == n else true
      | none => true)
  && (match status with
      | some s => b.status == s
      | none => true)

/-- `COALESCE(pr, 999999)`. -/
def coalescePr (pr : Option Nat) : Nat :=
  pr.getD 999999

/-- The `ORDER BY repo, COALESCE(pr, 999999), target_branch, created`
comparison of `search`, ascending. -/
def searchLeAsc (a b : Build) : Bool :=
  if a.commit_info.repo != b.commit_info.repo then
    strLe a.commit_info.repo b.commit_info.repo
  else if coalescePr a.commit_info.pr != coalescePr b.commit_info.pr then
    decide (coalescePr a.commit_info.pr < coalescePr b.commit_info.pr)
  else if a.commit_info.target_branch != b.commit_info.target_branch then
    strLe a.commit_info.target_branch b.commit_info.target_branch
  else
    decide (a.created ≤ b.created)

/-- Same comparison, all four columns `DESC`. -/
def searchLeDesc (a b : Build) : Bool :=
  searchLeAsc b a

/-- `db.BuildsDb.search`: filter by the given criteria and sort. -/
def search (db : Db) (repo target_branch branch : Option String)
    (pr : Option Nat) (name : Option String) (status : Option BuildStatus)
    (sort : SortOrder) : List Build :=
  List.insertionSort
    (fun a b =>
      (match sort with
       | SortOrder.desc => searchLeDesc
       | SortOrder.asc => searchLeAsc) a b = true)
    (db.filter (searchWhere repo target_branch branch pr name status))

end BuildsDb

/-- Value of a JSON-patch operation (`k8s.PatchOperation` holds
`str | int` values, or none for `remove`). -/
inductive PatchValue
  | str (s : String)
  | int (n : Nat)
deriving DecidableEq, Repr

/-- A JSON-patch-shaped operation sent to `k8s.patch_deployment`
(`k8s.PatchOperation`). -/
structure PatchOperation where
  op : String
  path : String
  value : Option PatchValue
deriving DecidableEq, Repr

/-- The annotation string of a `BuildInitStatus` (the enum values of
`models.BuildInitStatus`). -/
def BuildInitStatus.toAnnString : BuildInitStatus → String
  | BuildInitStatus.todo => "todo"
  | BuildInitStatus.started => "started"
  | BuildInitStatus.succeeded => "succeeded"
  | BuildInitStatus.failed => "failed"

/-- The batch of operations assembled by `models.Build._patch`: an
`init-status` replace when the requested value differs from the current one,
a `replicas` replace (together with a `last-scaled` refresh to the current
time `now`) when the requested value differs, and a finalizers removal when
requested. -/
def Build.patch_ops (b : Build) (init_status : Option BuildInitStatus)
    (desired_replicas : Option Nat) (remove_finalizers : Bool)
    (now : Nat) : List PatchOperation :=
  (match init_status with
   | some v =>
     if v != b.init_status then
       [{ op := "replace"
          path := "/metadata/annotations/runboat~1init-status"
          value := some (PatchValue.str v.toAnnString) }]
     else []
   | none => [])
  ++ (match desired_replicas with
      | some v =>
        if v != b.desired_replicas then
          [{ op := "replace"
             path := "/spec/replicas"
             value := some (PatchValue.int v) },
           { op := "replace"
             path := "/metadata/annotations/runboat~1last-scaled"
             value := some (PatchValue.str (toString now)) }]
        else []
      | none => [])
  ++ (if remove_finalizers then
        [{ op := "remove", path := "/metadata/finalizers", value := none }]
      else [])

/-- The list of `k8s.patch_deployment` calls issued by `models.Build._patch`:
one call with the assembled batch when it is non-empty, none otherwise. -/
def Build.patch_calls (b : Build) (init_status : Option BuildInitStatus)
    (desired_replicas : Option Nat) (remove_finalizers : Bool)
    (now : Nat) : List (List PatchOperation) :=
  let ops := b.patch_ops init_status desired_replicas remove_finalizers now
  if ops.isEmpty then [] else [ops]

/-- The boolean returned by `models.Build._patch`: whether it touched the
cluster. -/
def Build.patch_ret (b : Build) (init_status : Option BuildInitStatus)
    (desired_replicas : Option Nat) (remove_finalizers : Bool)
    (now : Nat) : Bool :=
  !(b.patch_ops init_status desired_replicas remove_finalizers now).isEmpty

/-- `models.Build.on_initialize_started`: no-op when already `started`;
otherwise patch `init_status := started, desired_replicas := 0` and post a
`pending` commit status iff the patch touched the cluster. Returns the patch
batch and the posted status. -/
def Build.on_initialize_started (b : Build) (now : Nat) :
    List PatchOperation × Option GitHubStatusState :=
  if b.init_status == BuildInitStatus.started then ([], none)
  else
    let ops := b.patch_ops (some BuildInitStatus.started) (some 0) false now
    (ops, if !ops.isEmpty then some GitHubStatusState.pending else none)

/-- `models.Build.on_initialize_succeeded`: no-op when already `succeeded`;
otherwise patch `init_status := succeeded` and post a `success` commit status
iff the patch touched the cluster. -/
def Build.on_initialize_succeeded (b : Build) (now : Nat) :
    List PatchOperation × Option GitHubStatusState :=
  if b.init_status == BuildInitStatus.succeeded then ([], none)
  else
    let ops := b.patch_ops (some BuildInitStatus.succeeded) none false now
    (ops, if !ops.isEmpty then some GitHubStatusState.success else none)

/-- `models.Build.on_initialize_failed`: no-op when already `failed`;
otherwise patch `init_status := failed, desired_replicas := 0` and post a
`failure` commit status iff the patch touched the cluster. -/
def Build.on_initialize_failed (b : Build) (now : Nat) :
    List PatchOperation × Option GitHubStatusState :=
  if b.init_status == BuildInitStatus.failed then ([], none)
  else
    let ops := b.patch_ops (some BuildInitStatus.failed) (some 0) false now
    (ops, if !ops.isEmpty then some GitHubStatusState.failure else none)

namespace Controller

/-- Effects on the cluster and the code forge observable from
`Controller.deploy_commit`. -/
inductive DeployEffect
  | applyDeployment (d : V1Deployment)
  | notifyStatus (repo git_commit : String) (state : GitHubStatusState)
deriving DecidableEq, Repr

/-- Modelled from the spec: the kubefiles manifest templates rendered by
`k8s.deploy` are not part of the sources; per spec sections 3 and 6 the
deployment applied for a new build carries the `runboat/build` label, the
commit annotations (with an empty `runboat/pr` for a branch build),
`runboat/init-status = todo`, no `runboat/last-scaled` annotation, and
`desired_replicas = 0`. -/
def renderedDeployment (c : CommitInfo) (build_name : String)
    (created : Nat) : V1Deployment :=
  { name := build_name ++ "-odoo"
    build_label := build_name
    ann :=
      { repo := c.repo
        target_branch := c.target_branch
        pr := c.pr
        git_commit := c.git_commit
        init_status := BuildInitStatus.todo
        last_scaled := none }
    creation_timestamp := created
    deletion_timestamp := none
    spec_replicas := some 0
    status_replicas := none
    available_replicas := none }

/-- `controller.Controller.deploy_commit`: look the commit up in the index;
when absent, `models.Build.deploy` applies the rendered manifests for a fresh
build name and posts a `pending` commit status. `build_name` stands for the
generated `b<uuid4>` and `created` for the server-set creation timestamp of
the applied deployment. -/
def deploy_commit (db : BuildsDb.Db) (c : CommitInfo) (build_name : String)
    (created : Nat) : List DeployEffect :=
  match BuildsDb.get_for_commit db c.repo c.target_branch c.pr c.git_commit with
  | some _ => []
  | none =>
    [DeployEffect.applyDeployment (renderedDeployment c build_name created),
     DeployEffect.notifyStatus c.repo c.git_commit GitHubStatusState.pending]

/-- The cluster as seen by `k8s.read_deployment`: the deployments currently
in the namespace; the read selects by the `runboat/build` label and returns
the first item. -/
def read_deployment (cluster : List V1Deployment) (name : String) :
    Option V1Deployment :=
  (cluster.filter (fun d => d.build_label == name)).head?

/-- `controller.Controller.get_build` with `db_only=False`: index lookup,
falling back to a direct cluster read which, on success, inserts the build
into the index. Returns the result and the updated index. -/
def get_build (db : BuildsDb.Db) (cluster : List V1Deployment)
    (build_name : String) : Option Build × BuildsDb.Db :=
  match BuildsDb.get db build_name with
  | some b => (some b, db)
  | none =>
    match read_deployment cluster build_name with
    | some d =>
      let b := Build.from_deployment d
      (some b, (BuildsDb.add db b).1)
    | none => (none, db)

/-- Watch event kinds delivered by `k8s._watch`; `initialList` stands for the
`None` kind of the initial full list. -/
inductive WatchEventType
  | initialList
  | added
  | modified
  | deleted
deriving DecidableEq, Repr

/-- A job snapshot as delivered by the job watch (`kubernetes V1Job`),
restricted to the fields the controller reads. The labels keep Python's
`labels.get` result; the status fields are the possibly-missing pod
counts. -/
structure V1Job where
  name : String
  build_label : Option String
  job_kind : Option String
  active : Option Nat
  succeeded : Option Nat
  failed : Option Nat
deriving DecidableEq, Repr

/-- Transition callbacks dispatchable by the job watcher. -/
inductive JobCallback
  | onInitializeStarted
  | onInitializeSucceeded
  | onInitializeFailed
  | onCleanupStarted
  | onCleanupSucceeded
  | onCleanupFailed
deriving DecidableEq, Repr

/-- Actions taken by one iteration of the job watcher. -/
inductive JobAction
  | delete_resources (build_name : String)
  | callback (build_name : String) (cb : JobCallback)
deriving DecidableEq, Repr

/-- Dispatch of `controller.Controller.job_watcher` on the job phase:
`active`, then `succeeded`, then `failed` (Python truthiness of the pod
counts), else nothing. -/
def jobCallbackFor (job : V1Job) (kind : String) : Option JobCallback :=
  if kind == "initialize" then
    if natTruthy job.active then some JobCallback.onInitializeStarted
    else if natTruthy job.succeeded then some JobCallback.onInitializeSucceeded
    else if natTruthy job.failed then some JobCallback.onInitializeFailed
    else none
  else
    if natTruthy job.active then some JobCallback.onCleanupStarted
    else if natTruthy job.succeeded then some JobCallback.onCleanupSucceeded
    else if natTruthy job.failed then some JobCallback.onCleanupFailed
    else none

/-- One iteration of `controller.Controller.job_watcher` for a single job
event: skip unlabeled jobs and kinds other than `initialize`/`cleanup`; for
non-deleted events, resolve the build through `get_build` (index, then
cluster); when the build is nowhere to be found, delete all resources
labeled with it; otherwise dispatch the transition callback. Returns the
updated index and the actions taken. -/
def jobWatcherStep (db : BuildsDb.Db) (cluster : List V1Deployment)
    (event_type : WatchEventType) (job : V1Job) :
    BuildsDb.Db × List JobAction :=
  if !strTruthy job.build_label then (db, [])
  else
    let build_name := job.build_label.getD ""
    if !(job.job_kind == some "initialize" || job.job_kind == some "cleanup")
    then (db, [])
    else if event_type == WatchEventType.deleted then (db, [])
    else
      match get_build db cluster build_name with
      | (none, db') => (db', [JobAction.delete_resources build_name])
      | (some _, db') =>
        match jobCallbackFor job (job.job_kind.getD "") with
        | some cb => (db', [JobAction.callback build_name cb])
        | none => (db', [])

/-- One pass of `controller.Controller.initializer` after wakeup: headroom is
`max_initializing - initializing` (a Python int, possibly negative); when
positive, dispatch `initialize()` on that many oldest `todo` builds. Returns
the builds acted on. -/
def initializerPass (db : BuildsDb.Db) (max_initializing : Nat) :
    List Build :=
  let canInit : Int :=
    (max_initializing : Int)
      - (BuildsDb.count_by_init_status db BuildInitStatus.started : Int)
  if canInit ≤ 0 then []
  else BuildsDb.to_initialize_list db canInit.toNat

/-- One pass of `controller.Controller.stopper`: headroom is
`started - max_started`; when positive, dispatch `stop()` on that many
oldest started builds. -/
def stopperPass (db : BuildsDb.Db) (max_started : Nat) : List Build :=
  let canStop : Int :=
    (BuildsDb.count_by_status db BuildStatus.started : Int)
      - (max_started : Int)
  if canStop ≤ 0 then []
  else BuildsDb.oldest_started db canStop.toNat

/-- One pass of `controller.Controller.undeployer`: headroom is
`deployed - max_deployed`; when positive, dispatch `undeploy()` on that many
oldest evictable stopped builds. -/
def undeployerPass (db : BuildsDb.Db) (max_deployed : Nat) : List Build :=
  let canUndeploy : Int :=
    (BuildsDb.count_deployed db : Int) - (max_deployed : Int)
  if canUndeploy ≤ 0 then []
  else BuildsDb.oldest_stopped db canUndeploy.toNat

/-- One pass of `controller.Controller.cleaner`: dispatch `cleanup()` on
every build with status `undeploying`, with no capacity ceiling. -/
def cleanerPass (db : BuildsDb.Db) : List Build :=
  BuildsDb.to_cleanup db

end Controller

/-! ## Concrete fixtures

Builds, deployments and index states used to evaluate the theorems on
concrete inputs; they mirror the fixtures of the repository's test suite. -/

/-- Fixture: a build with the given coordinates. -/
def mkBuild (name repo target_branch : String) (pr : Option Nat)
    (status : BuildStatus) (init_status : BuildInitStatus)
    (desired_replicas last_scaled created : Nat) : Build :=
  { name := name
    deployment_name := name ++ "-odoo"
    commit_info :=
      { repo := repo
        target_branch := target_branch
        pr := pr
        git_commit := "0d35a10f161b" }
    status := status
    init_status := init_status
    desired_replicas := desired_replicas
    last_scaled := last_scaled
    created := created }

/-- Fixture: an index holding two started builds. -/
def startedDb : BuildsDb.Db :=
  [mkBuild "b1" "oca/repo1" "15.0" none BuildStatus.started
      BuildInitStatus.succeeded 1 10 10,
   mkBuild "b2" "oca/repo1" "15.0" none BuildStatus.started
      BuildInitStatus.succeeded 1 20 20]

/-- Fixture: a build whose initialization job is running. -/
def initStartedBuild : Build :=
  mkBuild "b1" "oca/mis-builder" "15.0" (some 381) BuildStatus.initializing
    BuildInitStatus.started 0 10 10

/-- Fixture: a build whose initialization already succeeded. -/
def initSucceededBuild : Build :=
  mkBuild "b2" "oca/mis-builder" "15.0" (some 381) BuildStatus.stopped
    BuildInitStatus.succeeded 0 10 10

/-- Fixture: a deployment snapshot without a `runboat/last-scaled`
annotation. -/
def noLastScaledDep : V1Deployment :=
  { name := "b7-odoo"
    build_label := "b7"
    ann :=
      { repo := "oca/mis-builder"
        target_branch := "15.0"
        pr := none
        git_commit := "0d35a10f161b"
        init_status := BuildInitStatus.succeeded
        last_scaled := none }
    creation_timestamp := 77
    deletion_timestamp := none
    spec_replicas := some 0
    status_replicas := none
    available_replicas := none }

/-- Fixture: the same deployment snapshot with an empty `runboat/last-scaled`
annotation. -/
def emptyLastScaledDep : V1Deployment :=
  { noLastScaledDep with
      ann := { noLastScaledDep.ann with last_scaled := some "" } }

/-- Fixture: an index with two branch builds and a pull-request build of the
same repo and target branch, all stopped — the newest branch build must
survive eviction. -/
def evictionDb : BuildsDb.Db :=
  [mkBuild "b1" "oca/repo1" "15.0" none BuildStatus.stopped
      BuildInitStatus.succeeded 0 100 100,
   mkBuild "b2" "oca/repo1" "15.0" none BuildStatus.stopped
      BuildInitStatus.succeeded 0 200 200,
   mkBuild "pr1" "oca/repo1" "15.0" (some 1) BuildStatus.stopped
      BuildInitStatus.succeeded 0 400 400]

/-- Fixture: an index mixing branch and pull-request builds on two target
branches. -/
def searchDb : BuildsDb.Db :=
  [mkBuild "b1" "oca/repo1" "15.0" none BuildStatus.started
      BuildInitStatus.succeeded 1 10 10,
   mkBuild "b2" "oca/repo1" "15.0" (some 1) BuildStatus.stopped
      BuildInitStatus.succeeded 0 20 20,
   mkBuild "b3" "oca/repo1" "14.0" none BuildStatus.stopped
      BuildInitStatus.succeeded 0 30 30]

/-- Fixture: a commit as delivered by a webhook push payload. -/
def prCommit : CommitInfo :=
  { repo := "OCA/mis-builder"
    target_branch := "15.0"
    pr := some 381
    git_commit := "0d35a10f161b" }

/-- Fixture: an initialization job event for a build that exists nowhere. -/
def orphanJob : Controller.V1Job :=
  { name := "b9-initialize"
    build_label := some "b9"
    job_kind := some "initialize"
    active := some 1
    succeeded := none
    failed := none }

/-- Fixture: a stored build. -/
def c6prev : Build :=
  mkBuild "b1" "oca/repo1" "15.0" none BuildStatus.stopped
    BuildInitStatus.succeeded 0 10 10

/-- Fixture: the same build re-observed with a different (immutable) creation
timestamp but identical mutable fields. -/
def c6b : Build :=
  mkBuild "b1" "oca/repo1" "15.0" none BuildStatus.stopped
    BuildInitStatus.succeeded 0 10 99

/-- Fixture: an index holding `c6prev`. -/
def c6db : BuildsDb.Db := [c6prev]

/-! ## Theorems -/

/-- A build found by name in the index bears that name. -/
theorem get_name {db : BuildsDb.Db} {name : String} {b : Build}
    (h : BuildsDb.get db name = some b) : b.name = name := by
  have := List.find?_some h
  simpa using this

/-- `Build.eqPy` decomposed into propositional equalities. -/
theorem eqPy_iff {a b : Build} :
    Build.eqPy a b = true ↔
      a.name = b.name ∧ a.status = b.status ∧ a.init_status = b.init_status
        ∧ a.desired_replicas = b.desired_replicas
        ∧ a.last_scaled = b.last_scaled := by
  simp [Build.eqPy, and_assoc]

/-- An upsert of a build that compares `eqPy`-equal to the stored entry is a
complete no-op. -/
theorem add_of_eqPy (db : BuildsDb.Db) (b p : Build)
    (h1 : BuildsDb.get db b.name = some p) (h2 : Build.eqPy p b = true) :
    BuildsDb.add db b = (db, []) := by
  unfold BuildsDb.add
  simp [h1, h2]

/-- After an upsert, the upserted build is found under its name and compares
`eqPy`-equal to itself. -/
theorem get_add_self (db : BuildsDb.Db) (b : Build) :
    ∃ p, BuildsDb.get (BuildsDb.add db b).1 b.name = some p
      ∧ Build.eqPy p b = true := by
  cases hget : BuildsDb.get db b.name with
  | some prev =>
    cases he : Build.eqPy prev b with
    | true =>
      refine ⟨prev, ?_, he⟩
      simp [BuildsDb.add, hget, he]
    | false =>
      refine ⟨b, ?_, by simp [Build.eqPy]⟩
      have hstep : (BuildsDb.add db b).1
          = db.filter (fun x => x.name != b.name) ++ [b] := by
        simp [BuildsDb.add, hget, he]
      rw [hstep]
      unfold BuildsDb.get
      rw [List.find?_append]
      have hnone :
          (db.filter (fun x => x.name != b.name)).find?
            (fun x => x.name == b.name) = none := by
        rw [List.find?_eq_none]
        intro x hx
        rcases List.mem_filter.1 hx with ⟨-, hxne⟩
        simpa using hxne
      rw [hnone]
      simp
  | none =>
    refine ⟨b, ?_, by simp [Build.eqPy]⟩
    have hstep : (BuildsDb.add db b).1 = db ++ [b] := by
      simp [BuildsDb.add, hget]
    rw [hstep]
    unfold BuildsDb.get at hget ⊢
    rw [List.find?_append, hget]
    simp

/-- Claim C6: `add` compares the incoming build to the stored entry of the
same name over exactly the mutable fields `{status, init_status,
desired_replicas, last_scaled}` (the immutable fields are ignored); when
they all agree it changes nothing and fires no event, otherwise it upserts
and fires exactly one `modified` event — and `add b; add b` fires one event,
not two. -/
theorem c6_add_fires_once (db : BuildsDb.Db) (b prev : Build) :
    (BuildsDb.get db b.name = some prev →
      ((prev.status = b.status ∧ prev.init_status = b.init_status
          ∧ prev.desired_replicas = b.desired_replicas
          ∧ prev.last_scaled = b.last_scaled) →
        BuildsDb.add db b = (db, []))
      ∧ (¬(prev.status = b.status ∧ prev.init_status = b.init_status
            ∧ prev.desired_replicas = b.desired_replicas
            ∧ prev.last_scaled = b.last_scaled) →
        (BuildsDb.add db b).2 = [(BuildEvent.modified, b)]))
    ∧ (BuildsDb.get db b.name = none →
        (BuildsDb.add db b).2 = [(BuildEvent.modified, b)])
    ∧ (BuildsDb.add (BuildsDb.add db b).1 b).2 = [] := by
  refine ⟨fun hget => ⟨fun hmut => ?_, fun hmut => ?_⟩, fun hget => ?_, ?_⟩
  · exact add_of_eqPy db b prev hget
      (eqPy_iff.2 ⟨get_name hget, hmut.1, hmut.2.1, hmut.2.2.1, hmut.2.2.2⟩)
  · have he : Build.eqPy prev b = false := by
      cases h : Build.eqPy prev b
      · rfl
      · exact absurd (eqPy_iff.1 h).2 hmut
    unfold BuildsDb.add
    simp [hget, he]
  · unfold BuildsDb.add
    simp [hget]
  · obtain ⟨p, hp, he⟩ := get_add_self db b
    rw [add_of_eqPy _ b p hp he]

/-- Witness for C6: re-adding a build that differs only in its creation
timestamp is a no-op, and a repeated `add` fires no second event. -/
theorem c6_add_fires_once_witness :
    BuildsDb.add c6db c6b = (c6db, [])
      ∧ (BuildsDb.add (BuildsDb.add c6db c6b).1 c6b).2 = [] :=
  ⟨((c6_add_fires_once c6db c6b c6prev).1 (by decide)).1 (by decide),
   (c6_add_fires_once c6db c6b c6prev).2.2⟩

/-- Counterexample to claim C4 as stated: on a build whose init status is
`started` (not yet succeeded), `on_initialize_succeeded` patches only the
init-status annotation — no operation touches `/spec/replicas`, so
`desired_replicas` does not become 1. -/
theorem c4_counterexample :
    initStartedBuild.init_status ≠ BuildInitStatus.succeeded
      ∧ Build.on_initialize_succeeded initStartedBuild 42 =
          ([{ op := "replace"
              path := "/metadata/annotations/runboat~1init-status"
              value := some (PatchValue.str "succeeded") }],
           some GitHubStatusState.success)
      ∧ ((Build.on_initialize_succeeded initStartedBuild 42).1.filter
          (fun op => op.path == "/spec/replicas")) = [] := by
  decide

/-- Claim C4 (amended): when `on_initialize_succeeded` fires for a build
whose init status is not already `succeeded`, the deployment is patched so
that `init_status` becomes `succeeded` while `desired_replicas` is left
unchanged (no `/spec/replicas` operation is issued), and a `success` commit
status is posted; a second invocation on an already-succeeded build does
nothing. -/
theorem c4_on_initialize_succeeded (b : Build) (now : Nat) :
    (b.init_status ≠ BuildInitStatus.succeeded →
      Build.on_initialize_succeeded b now =
        ([{ op := "replace"
            path := "/metadata/annotations/runboat~1init-status"
            value := some (PatchValue.str "succeeded") }],
         some GitHubStatusState.success))
    ∧ (b.init_status = BuildInitStatus.succeeded →
        Build.on_initialize_succeeded b now = ([], none))
    ∧ ∀ op ∈ (Build.on_initialize_succeeded b now).1,
        op.path ≠ "/spec/replicas" := by
  cases hg : b.init_status == BuildInitStatus.succeeded
  · have hne : b.init_status ≠ BuildInitStatus.succeeded := by simpa using hg
    have hbne : (BuildInitStatus.succeeded != b.init_status) = true := by
      simp only [bne_iff_ne, ne_eq]
      exact fun h => hne h.symm
    refine ⟨fun _ => ?_, fun h => absurd h hne, ?_⟩
    · simp [Build.on_initialize_succeeded, Build.patch_ops, hg, hbne,
        BuildInitStatus.toAnnString]
    · intro op hop
      simp [Build.on_initialize_succeeded, Build.patch_ops, hg, hbne] at hop
      simp [hop]
  · have heq : b.init_status = BuildInitStatus.succeeded := by simpa using hg
    refine ⟨fun h => absurd heq h, fun _ => ?_, ?_⟩
    · simp [Build.on_initialize_succeeded, hg]
    · intro op hop
      simp [Build.on_initialize_succeeded, hg] at hop

/-- The length of a `take` is bounded by the requested count. -/
theorem lenTakeLe {α : Type} (n : Nat) (l : List α) : (l.take n).length ≤ n := by
  rw [List.length_take]
  exact min_le_left _ _

/-- Counterexample to claim C3 as stated: with two started builds and
`max_started = 1`, the stopper dispatches one stop action, which exceeds
max(0, limit − current) = max(0, 1 − 2) = 0. -/
theorem c3_counterexample :
    ¬ ((Controller.stopperPass startedDb 1).length
        ≤ ((1 : Int)
            - (BuildsDb.count_by_status startedDb BuildStatus.started : Int)
          ).toNat) := by
  decide

/-- Claim C3 (amended): per pass, the initializer dispatches at most
max(0, max_initializing − initializing) actions, the stopper at most
max(0, started − max_started), the undeployer at most
max(0, deployed − max_deployed), and the cleaner — which has no capacity
ceiling — dispatches exactly one cleanup per undeploying build. -/
theorem c3_reconciler_dispatch_bounds (db : BuildsDb.Db)
    (max_initializing max_started max_deployed : Nat) :
    (Controller.initializerPass db max_initializing).length
        ≤ ((max_initializing : Int)
            - (BuildsDb.count_by_init_status db BuildInitStatus.started : Int)
          ).toNat
      ∧ (Controller.stopperPass db max_started).length
        ≤ ((BuildsDb.count_by_status db BuildStatus.started : Int)
            - (max_started : Int)).toNat
      ∧ (Controller.undeployerPass db max_deployed).length
        ≤ ((BuildsDb.count_deployed db : Int) - (max_deployed : Int)).toNat
      ∧ (Controller.cleanerPass db).length
        = BuildsDb.count_by_status db BuildStatus.undeploying := by
  refine ⟨?_, ?_, ?_, ?_⟩
  · simp only [Controller.initializerPass]
    split_ifs with h
    · simp
    · exact lenTakeLe _ _
  · simp only [Controller.stopperPass]
    split_ifs with h
    · simp
    · exact lenTakeLe _ _
  · simp only [Controller.undeployerPass]
    split_ifs with h
    · simp
    · exact lenTakeLe _ _
  · simp only [Controller.cleanerPass, BuildsDb.to_cleanup,
      BuildsDb.count_by_status]
    rw [List.length_insertionSort]

/-- Claim C9: when the job watcher receives a non-deleted event for a job
labeled with a build name and a job kind in {initialize, cleanup}, and that
build is neither in the index nor retrievable from the cluster, it deletes
all resources labeled with the build, adds no build to the index, and
invokes no transition callback. -/
theorem c9_orphaned_job (db : BuildsDb.Db) (cluster : List V1Deployment)
    (et : Controller.WatchEventType) (job : Controller.V1Job) (X : String)
    (hlabel : job.build_label = some X) (hX : X ≠ "")
    (hkind : job.job_kind = some "initialize"
      ∨ job.job_kind = some "cleanup")
    (het : et ≠ Controller.WatchEventType.deleted)
    (hdb : BuildsDb.get db X = none)
    (hcluster : Controller.read_deployment cluster X = none) :
    Controller.jobWatcherStep db cluster et job =
      (db, [Controller.JobAction.delete_resources X]) := by
  have hget : Controller.get_build db cluster X = (none, db) := by
    unfold Controller.get_build
    rw [hdb, hcluster]
  have hetb : (et == Controller.WatchEventType.deleted) = false := by
    simpa using het
  rcases hkind with hkind | hkind <;>
    simp [Controller.jobWatcherStep, hlabel, strTruthy, hX, hkind, hetb, hget]

/-- Witness for C9: an initialize-job event for build `b9` against an empty
index and an empty cluster. -/
theorem c9_orphaned_job_witness :
    Controller.jobWatcherStep [] [] Controller.WatchEventType.added orphanJob
      = ([], [Controller.JobAction.delete_resources "b9"]) :=
  c9_orphaned_job [] [] Controller.WatchEventType.added orphanJob "b9"
    (by decide) (by decide) (Or.inl (by decide)) (by decide) (by decide)
    (by decide)

/-- The build observed by the deployment watcher after `deploy_commit`
applies its manifest matches the `get_for_commit` lookup for the same
commit, provided the pr is a genuine pull-request number. -/
theorem rendered_matches_commit_query (c : CommitInfo) (n1 : String)
    (t1 : Nat) (hpr : c.pr ≠ some 0) :
    ((Build.from_deployment
          (Controller.renderedDeployment c n1 t1)).commit_info.repo
          == strToLower c.repo
      && (Build.from_deployment
          (Controller.renderedDeployment c n1 t1)).commit_info.target_branch
          == c.target_branch
      && (Build.from_deployment
          (Controller.renderedDeployment c n1 t1)).commit_info.git_commit
          == c.git_commit
      && (if natTruthy c.pr then
            (Build.from_deployment
              (Controller.renderedDeployment c n1 t1)).commit_info.pr == c.pr
          else
            (Build.from_deployment
              (Controller.renderedDeployment c n1 t1)).commit_info.pr
              == none)) = true := by
  cases hc : natTruthy c.pr with
  | true =>
    simp [Build.from_deployment, Controller.renderedDeployment,
      CommitInfo.validated, hc]
  | false =>
    have hnone : c.pr = none := by
      cases hp : c.pr with
      | none => rfl
      | some k =>
        cases k with
        | zero => exact absurd hp hpr
        | succ k => rw [hp] at hc; simp [natTruthy] at hc
    simp [Build.from_deployment, Controller.renderedDeployment,
      CommitInfo.validated, hc, hnone]

/-- Claim C5: `deploy_commit` is idempotent per commit: when a build with
the same (lower-cased repo, target branch, pr — `pr IS NULL` when absent —
git commit) is already in the index, it applies nothing to the cluster and
posts no commit status; and two successive calls with the same commit — the
deployment watcher having indexed the build applied by the first — produce
exactly one deployment apply. `n1` is the fresh uuid name of the first call
(`hfresh`), and the pr, when present, is a genuine pull-request number
(`hpr`). -/
theorem c5_deploy_commit_idempotent (db : BuildsDb.Db) (c : CommitInfo)
    (n1 n2 : String) (t1 t2 : Nat) (hpr : c.pr ≠ some 0)
    (hfresh : BuildsDb.get db n1 = none) :
    (BuildsDb.get_for_commit db c.repo c.target_branch c.pr c.git_commit
        ≠ none →
      Controller.deploy_commit db c n1 t1 = [])
    ∧ (BuildsDb.get_for_commit db c.repo c.target_branch c.pr c.git_commit
        = none →
      Controller.deploy_commit db c n1 t1 =
          [Controller.DeployEffect.applyDeployment
              (Controller.renderedDeployment c n1 t1),
           Controller.DeployEffect.notifyStatus c.repo c.git_commit
              GitHubStatusState.pending]
        ∧ Controller.deploy_commit
            ((BuildsDb.add db
                (Build.from_deployment
                  (Controller.renderedDeployment c n1 t1))).1)
            c n2 t2 = []) := by
  constructor
  · intro h
    unfold Controller.deploy_commit
    cases hg : BuildsDb.get_for_commit db c.repo c.target_branch c.pr
        c.git_commit with
    | none => exact absurd hg h
    | some x => rfl
  · intro hg
    constructor
    · unfold Controller.deploy_commit
      rw [hg]
    · have hname :
          (Build.from_deployment (Controller.renderedDeployment c n1 t1)).name
            = n1 := rfl
      have hdb1 :
          (BuildsDb.add db
              (Build.from_deployment
                (Controller.renderedDeployment c n1 t1))).1
            = db ++ [Build.from_deployment
                (Controller.renderedDeployment c n1 t1)] := by
        simp [BuildsDb.add, hname, hfresh]
      rw [hdb1]
      have hfound :
          BuildsDb.get_for_commit
              (db ++ [Build.from_deployment
                  (Controller.renderedDeployment c n1 t1)])
              c.repo c.target_branch c.pr c.git_commit
            = some (Build.from_deployment
                (Controller.renderedDeployment c n1 t1)) := by
        unfold BuildsDb.get_for_commit at hg ⊢
        rw [List.find?_append, hg, Option.none_or, List.find?_singleton]
        simp [rendered_matches_commit_query c n1 t1 hpr]
      unfold Controller.deploy_commit
      rw [hfound]

/-- Decomposition of membership in `oldest_stopped`: a returned build sits
at some table position and passes the eviction `WHERE` clause for its row
number. -/
theorem mem_oldest_stopped_elim {db : BuildsDb.Db} {limit : Nat} {b : Build}
    (h : b ∈ BuildsDb.oldest_stopped db limit) :
    ∃ i, db[i]? = some b
      ∧ BuildsDb.evictFilter (BuildsDb.rownumAt db i b, b) = true := by
  unfold BuildsDb.oldest_stopped at h
  replace h := (List.take_sublist _ _).subset h
  rw [List.mem_insertionSort] at h
  rcases List.mem_map.1 h with ⟨p, hp, hpb⟩
  rcases List.mem_filter.1 hp with ⟨hpw, hcond⟩
  unfold BuildsDb.withRownum at hpw
  rcases List.mem_map.1 hpw with ⟨⟨i, bi⟩, hq, hqp⟩
  subst hqp
  simp only at hpb
  subst hpb
  exact ⟨i, List.mem_enum_iff_getElem?.1 hq, hcond⟩

/-- Introduction for membership in `oldest_stopped` with no effective limit:
a build at a table position passing the eviction clause is returned. -/
theorem mem_oldest_stopped_intro {db : BuildsDb.Db} {b : Build} {i : Nat}
    (hi : db[i]? = some b)
    (hcond : BuildsDb.evictFilter (BuildsDb.rownumAt db i b, b) = true) :
    b ∈ BuildsDb.oldest_stopped db db.length := by
  unfold BuildsDb.oldest_stopped
  have hmem : b ∈ ((BuildsDb.withRownum db).filter
      BuildsDb.evictFilter).map Prod.snd := by
    refine List.mem_map.2 ⟨(BuildsDb.rownumAt db i b, b), ?_, rfl⟩
    refine List.mem_filter.2 ⟨?_, hcond⟩
    unfold BuildsDb.withRownum
    exact List.mem_map.2 ⟨(i, b), List.mem_enum_iff_getElem?.2 hi, rfl⟩
  have hlen : (List.insertionSort BuildsDb.leLastScaled
      (((BuildsDb.withRownum db).filter BuildsDb.evictFilter).map
        Prod.snd)).length ≤ db.length := by
    rw [List.length_insertionSort, List.length_map]
    calc ((BuildsDb.withRownum db).filter BuildsDb.evictFilter).length
        ≤ (BuildsDb.withRownum db).length := List.length_filter_le _ _
      _ = db.length := by
          unfold BuildsDb.withRownum
          rw [List.length_map, List.enum_length]
  rw [List.take_of_length_le hlen, List.mem_insertionSort]
  exact hmem

/-- The window row number of a row holding the strictly newest build of its
partition is 1 (build names being unique, as the primary key enforces). -/
theorem rownumAt_eq_one {db : BuildsDb.Db} {i : Nat} {b : Build}
    (hnodup : (db.map Build.name).Nodup) (hi : db[i]? = some b)
    (hnew : ∀ b' ∈ db, b' ≠ b → BuildsDb.sameGroup b' b = true →
      b'.created < b.created) :
    BuildsDb.rownumAt db i b = 1 := by
  unfold BuildsDb.rownumAt
  have hempty : db.enum.filter (fun p => BuildsDb.beats p.2 b p.1 i) = [] := by
    rw [List.filter_eq_nil_iff]
    rintro ⟨j, a⟩ hmem
    have hja : db[j]? = some a := List.mem_enum_iff_getElem?.1 hmem
    by_cases hji : j = i
    · subst hji
      have hab : a = b := Option.some.inj (hja.symm.trans hi)
      subst hab
      simp [BuildsDb.beats]
    · have hne : a ≠ b := by
        intro he
        subst he
        have h1 : (db.map Build.name)[j]? = some a.name := by
          rw [List.getElem?_map, hja]
          rfl
        have h2 : (db.map Build.name)[i]? = some a.name := by
          rw [List.getElem?_map, hi]
          rfl
        have hjl : j < (db.map Build.name).length :=
          (List.getElem?_eq_some.1 h1).1
        exact hji (List.getElem?_inj hjl hnodup (h1.trans h2.symm))
      intro hbeats
      unfold BuildsDb.beats at hbeats
      rw [Bool.and_eq_true] at hbeats
      rcases hbeats with ⟨hg, hor⟩
      have hlt := hnew a (List.mem_iff_getElem?.2 ⟨j, hja⟩) hne hg
      simp only [Bool.or_eq_true, decide_eq_true_eq, Bool.and_eq_true,
        beq_iff_eq] at hor
      omega
  rw [hempty]
  rfl

/-- Claim C2: `oldest_stopped` returns only builds whose status is stopping,
stopped or failed, in ascending `last_scaled` order; under unique build
names it never returns the strictly most-recently-created build of a
`(repo, target_branch, pr)` group whose pr is null; and builds with a
non-null pr are always eligible: any such build with an evictable status is
returned when the limit covers the whole table. -/
theorem c2_oldest_stopped_eviction (db : BuildsDb.Db) (limit : Nat)
    (b : Build) :
    (b ∈ BuildsDb.oldest_stopped db limit →
      BuildsDb.evictableStatus b.status = true)
    ∧ List.Sorted BuildsDb.leLastScaled (BuildsDb.oldest_stopped db limit)
    ∧ ((db.map Build.name).Nodup → b ∈ db → b.commit_info.pr = none →
        (∀ b' ∈ db, b' ≠ b → BuildsDb.sameGroup b' b = true →
          b'.created < b.created) →
        b ∉ BuildsDb.oldest_stopped db limit)
    ∧ (b ∈ db → b.commit_info.pr ≠ none →
        BuildsDb.evictableStatus b.status = true →
        b ∈ BuildsDb.oldest_stopped db db.length) := by
  refine ⟨?_, ?_, ?_, ?_⟩
  · intro h
    obtain ⟨i, _, hcond⟩ := mem_oldest_stopped_elim h
    unfold BuildsDb.evictFilter at hcond
    rw [Bool.and_eq_true] at hcond
    exact hcond.1
  · unfold BuildsDb.oldest_stopped
    exact List.Pairwise.sublist (List.take_sublist _ _)
      (List.sorted_insertionSort BuildsDb.leLastScaled _)
  · intro hnodup _ hpr hnew h
    obtain ⟨i, hi, hcond⟩ := mem_oldest_stopped_elim h
    have hrn := rownumAt_eq_one hnodup hi hnew
    unfold BuildsDb.evictFilter at hcond
    rw [hrn, hpr] at hcond
    simp at hcond
  · intro hb hpr hev
    obtain ⟨i, hi⟩ := List.mem_iff_getElem?.1 hb
    refine mem_oldest_stopped_intro hi ?_
    unfold BuildsDb.evictFilter
    have hprb : (b.commit_info.pr != none) = true := by
      simpa using hpr
    simp [hev, hprb]

/-- Witness for C2: on a concrete index of two stopped branch builds and a
stopped pull-request build, the newest branch build is not evicted while the
pull-request build is. -/
theorem c2_oldest_stopped_eviction_witness :
    (mkBuild "b2" "oca/repo1" "15.0" none BuildStatus.stopped
        BuildInitStatus.succeeded 0 200 200
      ∉ BuildsDb.oldest_stopped evictionDb 3)
    ∧ (mkBuild "pr1" "oca/repo1" "15.0" (some 1) BuildStatus.stopped
        BuildInitStatus.succeeded 0 400 400
      ∈ BuildsDb.oldest_stopped evictionDb 3) :=
  ⟨(c2_oldest_stopped_eviction evictionDb 3
      (mkBuild "b2" "oca/repo1" "15.0" none BuildStatus.stopped
        BuildInitStatus.succeeded 0 200 200)).2.2.1 (by decide) (by decide)
      (by decide) (by decide),
   (c2_oldest_stopped_eviction evictionDb 3
      (mkBuild "pr1" "oca/repo1" "15.0" (some 1) BuildStatus.stopped
        BuildInitStatus.succeeded 0 400 400)).2.2.2 (by decide) (by decide)
      (by decide)⟩

/-- Membership in a `search` result is membership in the index restricted to
the assembled `WHERE` clause (sorting only permutes). -/
theorem mem_search_iff (db : BuildsDb.Db) (b : Build)
    (tb br : Option String) (prq : Option Nat) (sort : SortOrder) :
    b ∈ BuildsDb.search db none tb br prq none none sort ↔
      b ∈ db ∧ BuildsDb.searchWhere none tb br prq none none b = true := by
  unfold BuildsDb.search
  rw [List.mem_insertionSort, List.mem_filter]

/-- Claim C8: `search(target_branch=X)` is a superset of
`search(branch=X) ∪ search(target_branch=X, pr=p)`; for a non-empty branch
name, `branch=X` matches exactly the builds with target branch `X` and no
pr, while `target_branch=X` matches every build with that target branch,
pull requests included. -/
theorem c8_search_branch_superset (db : BuildsDb.Db) (X : String) (b : Build)
    (p : Nat) (sort : SortOrder) :
    (b ∈ BuildsDb.search db none none (some X) none none none sort →
      b ∈ BuildsDb.search db none (some X) none none none none sort)
    ∧ (b ∈ BuildsDb.search db none (some X) none (some p) none none sort →
      b ∈ BuildsDb.search db none (some X) none none none none sort)
    ∧ (X ≠ "" →
      (b ∈ BuildsDb.search db none none (some X) none none none sort ↔
        b ∈ db ∧ b.commit_info.target_branch = X ∧ b.commit_info.pr = none))
    ∧ (X ≠ "" →
      (b ∈ BuildsDb.search db none (some X) none none none none sort ↔
        b ∈ db ∧ b.commit_info.target_branch = X)) := by
  refine ⟨?_, ?_, ?_, ?_⟩
  · intro h
    rcases (mem_search_iff db b none (some X) none sort).1 h with ⟨hdb, hw⟩
    refine (mem_search_iff db b (some X) none none sort).2 ⟨hdb, ?_⟩
    revert hw
    unfold BuildsDb.searchWhere
    by_cases hX : X = "" <;> simp [hX]
    intro h1 _
    exact h1
  · intro h
    rcases (mem_search_iff db b (some X) none (some p) sort).1 h
      with ⟨hdb, hw⟩
    refine (mem_search_iff db b (some X) none none sort).2 ⟨hdb, ?_⟩
    revert hw
    unfold BuildsDb.searchWhere
    by_cases hX : X = "" <;> simp [hX]
    intro h1 _
    exact h1
  · intro hX
    rw [mem_search_iff db b none (some X) none sort]
    unfold BuildsDb.searchWhere
    simp [hX, and_assoc]
  · intro hX
    rw [mem_search_iff db b (some X) none none sort]
    unfold BuildsDb.searchWhere
    simp [hX]

/-- Witness for C8: on a concrete index, the branch build is found through
`branch=15.0` and the pull-request build through `target_branch=15.0,
pr=1`; both memberships propagate to `search(target_branch=15.0)`. -/
theorem c8_search_branch_superset_witness :
    (mkBuild "b1" "oca/repo1" "15.0" none BuildStatus.started
        BuildInitStatus.succeeded 1 10 10
      ∈ BuildsDb.search searchDb none (some "15.0") none none none none
        SortOrder.desc)
    ∧ (mkBuild "b2" "oca/repo1" "15.0" (some 1) BuildStatus.stopped
        BuildInitStatus.succeeded 0 20 20
      ∈ BuildsDb.search searchDb none (some "15.0") none none none none
        SortOrder.desc) :=
  ⟨(c8_search_branch_superset searchDb "15.0"
      (mkBuild "b1" "oca/repo1" "15.0" none BuildStatus.started
        BuildInitStatus.succeeded 1 10 10) 1 SortOrder.desc).1 (by decide),
   (c8_search_branch_superset searchDb "15.0"
      (mkBuild "b2" "oca/repo1" "15.0" (some 1) BuildStatus.stopped
        BuildInitStatus.succeeded 0 20 20) 1 SortOrder.desc).2.1 (by decide)⟩

/-- Witness for C5: deploying the same pull-request commit twice against an
initially empty index results in a single apply. -/
theorem c5_deploy_commit_idempotent_witness :
    Controller.deploy_commit ([] : BuildsDb.Db) prCommit "b1" 5 =
        [Controller.DeployEffect.applyDeployment
            (Controller.renderedDeployment prCommit "b1" 5),
         Controller.DeployEffect.notifyStatus prCommit.repo
            prCommit.git_commit GitHubStatusState.pending]
      ∧ Controller.deploy_commit
          ((BuildsDb.add ([] : BuildsDb.Db)
              (Build.from_deployment
                (Controller.renderedDeployment prCommit "b1" 5))).1)
          prCommit "b2" 9 = [] :=
  (c5_deploy_commit_idempotent [] prCommit "b1" "b2" 5 9 (by decide)
      (by decide)).2 (by decide)

/-- Witness for C4: evaluated on a build in init status `started` and on one
already succeeded. -/
theorem c4_on_initialize_succeeded_witness :
    Build.on_initialize_succeeded initStartedBuild 42 =
        ([{ op := "replace"
            path := "/metadata/annotations/runboat~1init-status"
            value := some (PatchValue.str "succeeded") }],
         some GitHubStatusState.success)
      ∧ Build.on_initialize_succeeded initSucceededBuild 42 = ([], none) :=
  ⟨(c4_on_initialize_succeeded initStartedBuild 42).1 (by decide),
   (c4_on_initialize_succeeded initSucceededBuild 42).2.1 (by decide)⟩

set_option maxHeartbeats 1000000 in
/-- Claim C1: for every deployment snapshot, the build status derived by
`Build.status_from_deployment` equals the table of spec section 3 applied to
the deletion marker, the init status, and the desired
(`spec.replicas or 0`), current (`status.replicas or 0`) and available
(`status.available_replicas or 0`) replica counts. -/
theorem c1_status_from_deployment_eq_table (d : V1Deployment) :
    Build.status_from_deployment d =
      specStatusTable d.deletion_timestamp.isSome d.ann.init_status
        (d.spec_replicas.getD 0) (d.status_replicas.getD 0)
        (d.available_replicas.getD 0) := by
  unfold Build.status_from_deployment specStatusTable
  generalize d.deletion_timestamp = dt
  generalize d.ann.init_status = is
  generalize d.spec_replicas = sr
  generalize d.status_replicas = str
  generalize d.available_replicas = ar
  rcases dt with _ | t
  case some => rfl
  case none =>
    rcases is
    case todo => rfl
    case started => rfl
    case failed => rfl
    case succeeded =>
      rcases sr with _ | n <;> rcases str with _ | k <;> rcases ar with _ | m <;>
        split_ifs <;>
        first
          | rfl
          | simp_all [natTruthy]

/-- Claim C7: a `_patch` requesting the build's current `init_status` and
`desired_replicas` (without finalizer removal) assembles no operation, issues
no cluster call and returns `false`; `_patch` returns `true` exactly when it
issued a `patch_deployment` call; and each `on_initialize_*` transition
callback posts a commit status exactly when its `_patch` returned `true`. -/
theorem c7_patch_suppression (b : Build) (now : Nat) :
    (b.patch_ops (some b.init_status) (some b.desired_replicas) false now = []
      ∧ b.patch_calls (some b.init_status) (some b.desired_replicas) false now
          = []
      ∧ b.patch_ret (some b.init_status) (some b.desired_replicas) false now
          = false)
    ∧ (∀ is dr rf,
        b.patch_ret is dr rf now = true ↔ b.patch_calls is dr rf now ≠ [])
    ∧ ((b.on_initialize_started now).2.isSome
        = !((b.on_initialize_started now).1.isEmpty))
    ∧ ((b.on_initialize_succeeded now).2.isSome
        = !((b.on_initialize_succeeded now).1.isEmpty))
    ∧ ((b.on_initialize_failed now).2.isSome
        = !((b.on_initialize_failed now).1.isEmpty)) := by
  refine ⟨⟨?_, ?_, ?_⟩, ?_, ?_, ?_, ?_⟩
  · simp [Build.patch_ops]
  · simp [Build.patch_calls, Build.patch_ops]
  · simp [Build.patch_ret, Build.patch_ops]
  · intro is dr rf
    unfold Build.patch_ret Build.patch_calls
    cases h : (b.patch_ops is dr rf now).isEmpty <;> simp [h]
  · unfold Build.on_initialize_started
    cases hg : (b.init_status == BuildInitStatus.started)
    · cases h : (b.patch_ops (some BuildInitStatus.started) (some 0) false
          now).isEmpty <;> simp [hg, h]
    · simp [hg]
  · unfold Build.on_initialize_succeeded
    cases hg : (b.init_status == BuildInitStatus.succeeded)
    · cases h : (b.patch_ops (some BuildInitStatus.succeeded) none false
          now).isEmpty <;> simp [hg, h]
    · simp [hg]
  · unfold Build.on_initialize_failed
    cases hg : (b.init_status == BuildInitStatus.failed)
    · cases h : (b.patch_ops (some BuildInitStatus.failed) (some 0) false
          now).isEmpty <;> simp [hg, h]
    · simp [hg]

/-- Claim C10: when the `runboat/last-scaled` annotation is absent or empty,
`Build.from_deployment` sets `last_scaled` to the deployment's creation
timestamp, so such builds are ordered by creation time wherever
`last_scaled` orders eviction. -/
theorem c10_last_scaled_fallback (d : V1Deployment)
    (h : d.ann.last_scaled = none ∨ d.ann.last_scaled = some "") :
    (Build.from_deployment d).last_scaled = d.creation_timestamp := by
  unfold Build.from_deployment
  rcases h with h | h <;> simp [h]

/-- Witness for C10: evaluated on a snapshot without the annotation and on
one with the empty annotation. -/
theorem c10_last_scaled_fallback_witness :
    (Build.from_deployment noLastScaledDep).last_scaled = 77
      ∧ (Build.from_deployment emptyLastScaledDep).last_scaled = 77 :=
  ⟨c10_last_scaled_fallback noLastScaledDep (Or.inl rfl),
   c10_last_scaled_fallback emptyLastScaledDep (Or.inr rfl)⟩

end Runboat
